import Mathlib

/-!
Shallow embedding of the Bend CLI pipeline driver (src/main.rs) and proofs
about its configuration-resolution and external-process logic.

The driver's own code (src/main.rs) is embedded directly.  Types and
functions it imports from the `bend` library (CompileOpts, DiagnosticsConfig,
Severity, run_book, ...) are not part of the shown source; where their
behavior matters they are modelled from the specification and marked
`Modelled from the spec:` in their doc comments.
-/

namespace Bend

/-- Severity of a diagnostic category (library type; the spec's
DiagnosticSeverity: one of Allow, Warning, Error). -/
inductive Severity
  | Allow
  | Warning
  | Error
deriving DecidableEq

/-- Modelled from the spec: the library's DiagnosticsConfig record — one
severity per diagnostic category (irrefutable-match, redundant-match,
unreachable-match, unused-definition, repeated-bind, recursion-cycle, §3)
plus the verbosity flag passed to DiagnosticsConfig::new in src/main.rs.
The six category fields are exactly those written by the driver's own
`set` helper (src/main.rs lines 378-395). -/
structure DiagnosticsConfig where
  irrefutable_match : Severity
  redundant_match : Severity
  unreachable_match : Severity
  unused_definition : Severity
  repeated_bind : Severity
  recursion_cycle : Severity
  verbose : Bool
deriving DecidableEq

/-- Modelled from the spec: DiagnosticsConfig::new(severity, verbose)
(library constructor, called at src/main.rs line 350) builds a
configuration with every category at the given severity and the given
verbosity ("diagnostics severity defaulted to Allow unless verbose
requested", §4.3). -/
def DiagnosticsConfig.new (s : Severity) (verbose : Bool) : DiagnosticsConfig :=
  ⟨s, s, s, s, s, s, verbose⟩

/-- Modelled from the spec: DiagnosticsConfig::default() (library code,
called at src/main.rs lines 277, 286, 298, 329) is the standard default
configuration.  The spec does not fix its concrete severities; they are
fixed here as Warning with verbosity off.  No claim depends on these
concrete values, only on which modes start from this record. -/
def DiagnosticsConfig.default : DiagnosticsConfig :=
  DiagnosticsConfig.new Severity.Warning false

/-- The CLI warning-category tokens (src/main.rs lines 224-233). -/
inductive WarningArgs
  | All
  | IrrefutableMatch
  | RedundantMatch
  | UnreachableMatch
  | UnusedDefinition
  | RepeatedBind
  | RecursionCycle
deriving DecidableEq

/-- The three per-group token queues of CliWarnOpts
(src/main.rs lines 137-166). -/
structure CliWarnOpts where
  warns : List WarningArgs
  denies : List WarningArgs
  allows : List WarningArgs
deriving DecidableEq

/-- The six real diagnostic categories, used as field selectors for
stating properties of DiagnosticsConfig. -/
inductive Cat
  | irrefutable_match
  | redundant_match
  | unreachable_match
  | unused_definition
  | repeated_bind
  | recursion_cycle
deriving DecidableEq

/-- Field selector for DiagnosticsConfig. -/
def getCat (cfg : DiagnosticsConfig) : Cat → Severity
  | .irrefutable_match => cfg.irrefutable_match
  | .redundant_match => cfg.redundant_match
  | .unreachable_match => cfg.unreachable_match
  | .unused_definition => cfg.unused_definition
  | .repeated_bind => cfg.repeated_bind
  | .recursion_cycle => cfg.recursion_cycle

/-- The specific warning token naming a given category. -/
def catTok : Cat → WarningArgs
  | .irrefutable_match => .IrrefutableMatch
  | .redundant_match => .RedundantMatch
  | .unreachable_match => .UnreachableMatch
  | .unused_definition => .UnusedDefinition
  | .repeated_bind => .RepeatedBind
  | .recursion_cycle => .RecursionCycle

/-- The inner `set` helper of set_warning_cfg_from_cli
(src/main.rs lines 378-395): WarningArgs::All writes every real category;
a specific token writes only its own field. -/
def set (cfg : DiagnosticsConfig) (severity : Severity) (cli_val : WarningArgs) : DiagnosticsConfig :=
  match cli_val with
  | .All =>
    { cfg with
      irrefutable_match := severity
      redundant_match := severity
      unreachable_match := severity
      unused_definition := severity
      repeated_bind := severity
      recursion_cycle := severity }
  | .IrrefutableMatch => { cfg with irrefutable_match := severity }
  | .RedundantMatch => { cfg with redundant_match := severity }
  | .UnreachableMatch => { cfg with unreachable_match := severity }
  | .UnusedDefinition => { cfg with unused_definition := severity }
  | .RepeatedBind => { cfg with repeated_bind := severity }
  | .RecursionCycle => { cfg with recursion_cycle := severity }

/-- The replay loop of set_warning_cfg_from_cli (src/main.rs lines 402-413):
walk the merged clap id stream; at each id pop the head of that group's
queue and apply it with the group's severity (allows → Allow,
denies → Error, warns → Warning).  `none` models a panic: either an
`unwrap` on an exhausted queue or the `unreachable` arm for a foreign id.
The final value also carries the leftover queues, so that full consumption
is observable. -/
def set_warning_cfg_go (cfg : DiagnosticsConfig) :
    List String → List WarningArgs → List WarningArgs → List WarningArgs →
    Option (DiagnosticsConfig × List WarningArgs × List WarningArgs × List WarningArgs)
  | [], allows, warns, denies => some (cfg, allows, warns, denies)
  | id :: ids, allows, warns, denies =>
    if id = "allows" then
      match allows with
      | [] => none
      | a :: rest => set_warning_cfg_go (set cfg Severity.Allow a) ids rest warns denies
    else if id = "denies" then
      match denies with
      | [] => none
      | a :: rest => set_warning_cfg_go (set cfg Severity.Error a) ids allows warns rest
    else if id = "warns" then
      match warns with
      | [] => none
      | a :: rest => set_warning_cfg_go (set cfg Severity.Warning a) ids allows rest denies
    else none

/-- set_warning_cfg_from_cli (src/main.rs lines 377-416): resolve the
warn/deny/allow tokens on top of `cfg`.  `ids` is the merged,
order-preserving stream of clap group ids ("allows"/"denies"/"warns")
for the invocation; the three queues come from CliWarnOpts.
`none` models a panic of the Rust function. -/
def set_warning_cfg_from_cli (cfg : DiagnosticsConfig) (ids : List String)
    (warn_opts : CliWarnOpts) : Option DiagnosticsConfig :=
  (set_warning_cfg_go cfg ids warn_opts.allows warn_opts.warns warn_opts.denies).map
    (fun r => r.1)

/-- The merged token stream: replays the id stream against the three queues
producing the (severity, category-token) pairs in original occurrence
order, with the group-to-severity mapping of src/main.rs lines 408-410. -/
def merge_tokens :
    List String → List WarningArgs → List WarningArgs → List WarningArgs →
    Option (List (Severity × WarningArgs))
  | [], _, _, _ => some []
  | id :: ids, allows, warns, denies =>
    if id = "allows" then
      match allows with
      | [] => none
      | a :: rest => (merge_tokens ids rest warns denies).map (fun ts => (Severity.Allow, a) :: ts)
    else if id = "denies" then
      match denies with
      | [] => none
      | a :: rest => (merge_tokens ids allows warns rest).map (fun ts => (Severity.Error, a) :: ts)
    else if id = "warns" then
      match warns with
      | [] => none
      | a :: rest => (merge_tokens ids allows rest denies).map (fun ts => (Severity.Warning, a) :: ts)
    else none

/-- Apply a list of (severity, token) pairs in order, by the driver's
`set` helper. -/
def applyToks (cfg : DiagnosticsConfig) (toks : List (Severity × WarningArgs)) : DiagnosticsConfig :=
  toks.foldl (fun c p => set c p.1 p.2) cfg

/-- Whether a warning token references a given category: either it names it
or it is the synthetic All token. -/
def refs (w : WarningArgs) (c : Cat) : Bool :=
  w == WarningArgs.All || w == catTok c

/-- Severity of the token referencing category `c` with the greatest
position index in the token list, if any. -/
def lastRef : List (Severity × WarningArgs) → Cat → Option Severity
  | [], _ => none
  | p :: ps, c =>
    match lastRef ps c with
    | some s => some s
    | none => if refs p.2 c then some p.1 else none

theorem getCat_set (cfg : DiagnosticsConfig) (s : Severity) (w : WarningArgs) (c : Cat) :
    getCat (set cfg s w) c = if refs w c then s else getCat cfg c := by
  cases w <;> cases c <;> simp [set, getCat, refs, catTok]

theorem getCat_applyToks (toks : List (Severity × WarningArgs)) (cfg : DiagnosticsConfig) (c : Cat) :
    getCat (applyToks cfg toks) c = (lastRef toks c).getD (getCat cfg c) := by
  induction toks generalizing cfg with
  | nil => rfl
  | cons p ps ih =>
    show getCat (applyToks (set cfg p.1 p.2) ps) c = _
    rw [ih]
    cases h : lastRef ps c with
    | some s => simp [lastRef, h]
    | none =>
      simp only [lastRef, h, getCat_set]
      cases hr : refs p.2 c <;> simp [hr]

theorem set_warning_cfg_go_merge (ids : List String)
    (allows warns denies : List WarningArgs) (cfg : DiagnosticsConfig)
    (toks : List (Severity × WarningArgs))
    (h : merge_tokens ids allows warns denies = some toks) :
    (set_warning_cfg_go cfg ids allows warns denies).map (fun r => r.1) =
      some (applyToks cfg toks) := by
  induction ids generalizing allows warns denies cfg toks with
  | nil =>
    simp [merge_tokens] at h
    subst h
    rfl
  | cons id ids ih =>
    by_cases ha : id = "allows"
    · subst ha
      cases allows with
      | nil => simp [merge_tokens] at h
      | cons a rest =>
        cases hrec : merge_tokens ids rest warns denies with
        | none => simp [merge_tokens, hrec] at h
        | some ts =>
          simp only [merge_tokens, hrec] at h
          simp at h
          subst h
          simpa [set_warning_cfg_go, applyToks] using
            ih rest warns denies (set cfg Severity.Allow a) ts hrec
    · by_cases hd : id = "denies"
      · subst hd
        cases denies with
        | nil => simp [merge_tokens, ha] at h
        | cons a rest =>
          cases hrec : merge_tokens ids allows warns rest with
          | none => simp [merge_tokens, ha, hrec] at h
          | some ts =>
            simp only [merge_tokens, hrec] at h
            simp [ha] at h
            subst h
            simpa [set_warning_cfg_go, ha, applyToks] using
              ih allows warns rest (set cfg Severity.Error a) ts hrec
      · by_cases hw : id = "warns"
        · subst hw
          cases warns with
          | nil => simp [merge_tokens, ha, hd] at h
          | cons a rest =>
            cases hrec : merge_tokens ids allows rest denies with
            | none => simp [merge_tokens, ha, hd, hrec] at h
            | some ts =>
              simp only [merge_tokens, hrec] at h
              simp [ha, hd] at h
              subst h
              simpa [set_warning_cfg_go, ha, hd, applyToks] using
                ih allows rest denies (set cfg Severity.Warning a) ts hrec
        · simp [merge_tokens, ha, hd, hw] at h

theorem applyToks_append (cfg : DiagnosticsConfig)
    (l l' : List (Severity × WarningArgs)) :
    applyToks cfg (l ++ l') = applyToks (applyToks cfg l) l' := by
  simp [applyToks, List.foldl_append]

/-- C10: under the lockstep precondition — the merged id stream contains,
for each of the three groups, exactly as many entries as that group's
category queue holds, and every id is one of the three group labels —
the replay loop of set_warning_cfg_from_cli (src/main.rs lines 397-414)
never takes the unwrap-panic branch nor the unreachable group-label branch
(the result is `some`), and exactly all queue elements are consumed in
original occurrence order (every leftover queue is empty). -/
theorem c10_lockstep_no_panic (cfg : DiagnosticsConfig) (ids : List String)
    (allows warns denies : List WarningArgs)
    (hids : ∀ i ∈ ids, i = "allows" ∨ i = "denies" ∨ i = "warns")
    (ha : ids.count "allows" = allows.length)
    (hd : ids.count "denies" = denies.length)
    (hw : ids.count "warns" = warns.length) :
    ∃ cfg', set_warning_cfg_go cfg ids allows warns denies = some (cfg', [], [], []) := by
  induction ids generalizing cfg allows warns denies with
  | nil =>
    simp only [List.count_nil] at ha hd hw
    cases allows with
    | cons _ _ => simp at ha
    | nil =>
      cases warns with
      | cons _ _ => simp at hw
      | nil =>
        cases denies with
        | cons _ _ => simp at hd
        | nil => exact ⟨cfg, rfl⟩
  | cons i ids ih =>
    rcases hids i (List.mem_cons_self i ids) with h1 | h1 | h1
    · subst h1
      rw [List.count_cons_self] at ha
      rw [List.count_cons_of_ne (by decide)] at hd
      rw [List.count_cons_of_ne (by decide)] at hw
      cases allows with
      | nil => simp at ha
      | cons a rest =>
        have ha' : ids.count "allows" = rest.length := by
          simp only [List.length_cons] at ha; omega
        obtain ⟨cfg', hcfg⟩ := ih (set cfg Severity.Allow a) rest warns denies
          (fun j hj => hids j (List.mem_cons_of_mem _ hj)) ha' hd hw
        exact ⟨cfg', hcfg⟩
    · subst h1
      rw [List.count_cons_self] at hd
      rw [List.count_cons_of_ne (by decide)] at ha
      rw [List.count_cons_of_ne (by decide)] at hw
      cases denies with
      | nil => simp at hd
      | cons a rest =>
        have hd' : ids.count "denies" = rest.length := by
          simp only [List.length_cons] at hd; omega
        obtain ⟨cfg', hcfg⟩ := ih (set cfg Severity.Error a) allows warns rest
          (fun j hj => hids j (List.mem_cons_of_mem _ hj)) ha hd' hw
        exact ⟨cfg', hcfg⟩
    · subst h1
      rw [List.count_cons_self] at hw
      rw [List.count_cons_of_ne (by decide)] at ha
      rw [List.count_cons_of_ne (by decide)] at hd
      cases warns with
      | nil => simp at hw
      | cons a rest =>
        have hw' : ids.count "warns" = rest.length := by
          simp only [List.length_cons] at hw; omega
        obtain ⟨cfg', hcfg⟩ := ih (set cfg Severity.Warning a) allows rest denies
          (fun j hj => hids j (List.mem_cons_of_mem _ hj)) ha hd hw'
        exact ⟨cfg', hcfg⟩

/-- Witness for C10 at a concrete interleaved invocation. -/
theorem c10_lockstep_no_panic_witness :
    ∃ cfg', set_warning_cfg_go DiagnosticsConfig.default ["warns", "allows", "denies"]
      [WarningArgs.All] [WarningArgs.IrrefutableMatch] [WarningArgs.RecursionCycle] =
      some (cfg', [], [], []) :=
  c10_lockstep_no_panic DiagnosticsConfig.default ["warns", "allows", "denies"]
    [WarningArgs.All] [WarningArgs.IrrefutableMatch] [WarningArgs.RecursionCycle]
    (by decide) (by decide) (by decide) (by decide)

/-- C1: for every merged warn/deny/allow token stream of one invocation and
every diagnostic category, the resolved severity of that category equals
the severity implied by the group of the token referencing that category
(naming it, or the synthetic All) with the greatest original position
index — the order being global across the three groups, as replayed by
set_warning_cfg_from_cli (src/main.rs lines 377-416) with the mapping
warns → Warning, denies → Error, allows → Allow. -/
theorem c1_severity_last_write_wins (cfg : DiagnosticsConfig) (ids : List String)
    (warn_opts : CliWarnOpts) (c : Cat)
    (toks : List (Severity × WarningArgs)) (s : Severity)
    (hm : merge_tokens ids warn_opts.allows warn_opts.warns warn_opts.denies = some toks)
    (hl : lastRef toks c = some s) :
    (set_warning_cfg_from_cli cfg ids warn_opts).map (fun r => getCat r c) = some s := by
  have h := set_warning_cfg_go_merge ids warn_opts.allows warn_opts.warns warn_opts.denies
    cfg toks hm
  unfold set_warning_cfg_from_cli
  rw [h, Option.map_some', getCat_applyToks, hl]
  rfl

/-- Witness for C1: the warn/deny/allow interleaving
`-W all -D irrefutable-match -A irrefutable-match` resolves
irrefutable-match to Allow, the group severity of its last reference. -/
theorem c1_severity_last_write_wins_witness :
    (set_warning_cfg_from_cli DiagnosticsConfig.default ["warns", "denies", "allows"]
      ⟨[WarningArgs.All], [WarningArgs.IrrefutableMatch], [WarningArgs.IrrefutableMatch]⟩).map
      (fun r => getCat r Cat.irrefutable_match) = some Severity.Allow :=
  c1_severity_last_write_wins DiagnosticsConfig.default ["warns", "denies", "allows"]
    ⟨[WarningArgs.All], [WarningArgs.IrrefutableMatch], [WarningArgs.IrrefutableMatch]⟩
    Cat.irrefutable_match
    [(Severity.Warning, WarningArgs.All), (Severity.Error, WarningArgs.IrrefutableMatch),
      (Severity.Allow, WarningArgs.IrrefutableMatch)]
    Severity.Allow (by decide) (by decide)

/-- C4: applying the synthetic All token at any position of the merged
order sets all six real categories to that position's severity, and a
later token naming one specific category changes only that category,
leaving the other five unchanged (src/main.rs lines 378-395). -/
theorem c4_all_frame (cfg : DiagnosticsConfig)
    (toks : List (Severity × WarningArgs)) (s s' : Severity) (c c' : Cat)
    (hne : c' ≠ c) :
    getCat (applyToks cfg (toks ++ [(s, WarningArgs.All)])) c = s
    ∧ getCat (applyToks cfg (toks ++ [(s, WarningArgs.All), (s', catTok c)])) c = s'
    ∧ getCat (applyToks cfg (toks ++ [(s, WarningArgs.All), (s', catTok c)])) c' = s := by
  have hAll : ∀ (base : DiagnosticsConfig) (cc : Cat),
      getCat (set base s WarningArgs.All) cc = s := by
    intro base cc
    rw [getCat_set]
    simp [refs]
  have hrefs : refs (catTok c) c' = false := by
    cases c <;> cases c' <;> revert hne <;> decide
  refine ⟨?_, ?_, ?_⟩
  · rw [applyToks_append]
    exact hAll (applyToks cfg toks) c
  · rw [applyToks_append]
    show getCat (set (set (applyToks cfg toks) s WarningArgs.All) s' (catTok c)) c = s'
    rw [getCat_set]
    simp [refs]
  · rw [applyToks_append]
    show getCat (set (set (applyToks cfg toks) s WarningArgs.All) s' (catTok c)) c' = s
    rw [getCat_set, hrefs]
    simp only [Bool.false_eq_true, if_false]
    exact hAll (applyToks cfg toks) c'

/-- Witness for C4 at a concrete stream: All at severity Error followed by
repeated-bind at severity Allow. -/
theorem c4_all_frame_witness :
    getCat (applyToks DiagnosticsConfig.default ([] ++ [(Severity.Error, WarningArgs.All)]))
      Cat.repeated_bind = Severity.Error
    ∧ getCat (applyToks DiagnosticsConfig.default
        ([] ++ [(Severity.Error, WarningArgs.All), (Severity.Allow, catTok Cat.repeated_bind)]))
      Cat.repeated_bind = Severity.Allow
    ∧ getCat (applyToks DiagnosticsConfig.default
        ([] ++ [(Severity.Error, WarningArgs.All), (Severity.Allow, catTok Cat.repeated_bind)]))
      Cat.recursion_cycle = Severity.Error :=
  c4_all_frame DiagnosticsConfig.default [] Severity.Error Severity.Allow
    Cat.repeated_bind Cat.recursion_cycle (by decide)

/-- Match-linearization level (library type OptLevel). -/
inductive OptLevel
  | Disabled
  | Enabled
  | Alt
deriving DecidableEq

/-- Algebraic-data-type encoding scheme (library type AdtEncoding). -/
inductive AdtEncoding
  | Scott
  | NumScott
deriving DecidableEq

/-- Modelled from the spec: the library's CompileOpts record — independent
boolean/enumerated toggles (eta-reduction, pruning, combinator floating,
merging, inlining, net-size checking, match-linearization level, ADT
encoding scheme, §3).  The fields are exactly those written by
compile_opts_from_cli (src/main.rs lines 191-222). -/
structure CompileOpts where
  eta : Bool
  prune : Bool
  linearize_matches : OptLevel
  float_combinators : Bool
  merge : Bool
  inline : Bool
  check_net_size : Bool
  adt_encoding : AdtEncoding
deriving DecidableEq

/-- Modelled from the spec: CompileOpts::default() (library code) — every
toggle has a defined default (§3).  The spec does not fix the concrete
default values; they are fixed here arbitrarily, and no claim depends
on them. -/
def CompileOpts.default : CompileOpts :=
  ⟨true, false, OptLevel.Enabled, true, false, false, true, AdtEncoding.NumScott⟩

/-- Modelled from the spec: CompileOpts::set_all (library code) — the
"enable-all" meta-toggle enables every optimization toggle that has an
enable/disable token pair (§4.1, §8: "the reverse order yields X enabled"
for any explicit toggle X); the ADT-encoding field, which has no
enable/disable pair, is not covered by the meta-toggle and retains its
value (§4.1 edge case). -/
def CompileOpts.set_all (o : CompileOpts) : CompileOpts :=
  { o with
    eta := true
    prune := true
    linearize_matches := OptLevel.Enabled
    float_combinators := true
    merge := true
    inline := true
    check_net_size := true }

/-- Modelled from the spec: CompileOpts::set_no_all (library code) — the
"disable-all" meta-toggle, dual of set_all. -/
def CompileOpts.set_no_all (o : CompileOpts) : CompileOpts :=
  { o with
    eta := false
    prune := false
    linearize_matches := OptLevel.Disabled
    float_combinators := false
    merge := false
    inline := false
    check_net_size := false }

/-- The CLI optimization-toggle tokens (src/main.rs lines 168-189). -/
inductive OptArgs
  | All
  | NoAll
  | Eta
  | NoEta
  | Prune
  | NoPrune
  | LinearizeMatches
  | LinearizeMatchesAlt
  | NoLinearizeMatches
  | FloatCombinators
  | NoFloatCombinators
  | Merge
  | NoMerge
  | Inline
  | NoInline
  | CheckNetSize
  | NoCheckNetSize
  | AdtScott
  | AdtNumScott
deriving DecidableEq

/-- One iteration of the loop body of compile_opts_from_cli
(src/main.rs lines 195-219). -/
def applyOptArg (opts : CompileOpts) : OptArgs → CompileOpts
  | .All => opts.set_all
  | .NoAll => opts.set_no_all
  | .Eta => { opts with eta := true }
  | .NoEta => { opts with eta := false }
  | .Prune => { opts with prune := true }
  | .NoPrune => { opts with prune := false }
  | .FloatCombinators => { opts with float_combinators := true }
  | .NoFloatCombinators => { opts with float_combinators := false }
  | .Merge => { opts with merge := true }
  | .NoMerge => { opts with merge := false }
  | .Inline => { opts with inline := true }
  | .NoInline => { opts with inline := false }
  | .CheckNetSize => { opts with check_net_size := true }
  | .NoCheckNetSize => { opts with check_net_size := false }
  | .LinearizeMatches => { opts with linearize_matches := OptLevel.Enabled }
  | .LinearizeMatchesAlt => { opts with linearize_matches := OptLevel.Alt }
  | .NoLinearizeMatches => { opts with linearize_matches := OptLevel.Disabled }
  | .AdtScott => { opts with adt_encoding := AdtEncoding.Scott }
  | .AdtNumScott => { opts with adt_encoding := AdtEncoding.NumScott }

/-- compile_opts_from_cli (src/main.rs lines 191-222): fold the ordered
toggle list over the default options record. -/
def compile_opts_from_cli (args : List OptArgs) : CompileOpts :=
  args.foldl applyOptArg CompileOpts.default

/-- The individually-named optimization toggles (fields of CompileOpts
that have an enable/disable token pair), used as field selectors for
stating properties. -/
inductive OptField
  | eta
  | prune
  | float_combinators
  | merge
  | inline
  | check_net_size
  | linearize_matches
deriving DecidableEq

/-- Value of one toggle field: a boolean or a match-linearization level. -/
inductive OptFieldVal
  | b (x : Bool)
  | lvl (x : OptLevel)
deriving DecidableEq

/-- Field selector for CompileOpts. -/
def readF (o : CompileOpts) : OptField → OptFieldVal
  | .eta => .b o.eta
  | .prune => .b o.prune
  | .float_combinators => .b o.float_combinators
  | .merge => .b o.merge
  | .inline => .b o.inline
  | .check_net_size => .b o.check_net_size
  | .linearize_matches => .lvl o.linearize_matches

/-- The disabled value of a toggle field. -/
def disabledVal : OptField → OptFieldVal
  | .linearize_matches => .lvl OptLevel.Disabled
  | _ => .b false

/-- The enabled value of a toggle field. -/
def enabledVal : OptField → OptFieldVal
  | .linearize_matches => .lvl OptLevel.Enabled
  | _ => .b true

/-- The explicit disable token for a toggle field. -/
def disableTok : OptField → OptArgs
  | .eta => .NoEta
  | .prune => .NoPrune
  | .float_combinators => .NoFloatCombinators
  | .merge => .NoMerge
  | .inline => .NoInline
  | .check_net_size => .NoCheckNetSize
  | .linearize_matches => .NoLinearizeMatches

/-- The explicit enable token for a toggle field. -/
def enableTok : OptField → OptArgs
  | .eta => .Eta
  | .prune => .Prune
  | .float_combinators => .FloatCombinators
  | .merge => .Merge
  | .inline => .Inline
  | .check_net_size => .CheckNetSize
  | .linearize_matches => .LinearizeMatches

/-- Whether a toggle token writes a given field (the meta-toggles write
every field; the ADT-encoding tokens write none of them). -/
def writes (a : OptArgs) (f : OptField) : Bool :=
  match a with
  | .All | .NoAll => true
  | .Eta | .NoEta => f == .eta
  | .Prune | .NoPrune => f == .prune
  | .LinearizeMatches | .LinearizeMatchesAlt | .NoLinearizeMatches => f == .linearize_matches
  | .FloatCombinators | .NoFloatCombinators => f == .float_combinators
  | .Merge | .NoMerge => f == .merge
  | .Inline | .NoInline => f == .inline
  | .CheckNetSize | .NoCheckNetSize => f == .check_net_size
  | .AdtScott | .AdtNumScott => false

theorem readF_applyOptArg_of_not_writes (o : CompileOpts) (a : OptArgs) (f : OptField)
    (h : writes a f = false) : readF (applyOptArg o a) f = readF o f := by
  cases a <;> cases f <;>
    simp_all [writes, readF, applyOptArg, CompileOpts.set_all, CompileOpts.set_no_all]

theorem readF_foldl_of_not_writes (l : List OptArgs) (o : CompileOpts) (f : OptField)
    (h : ∀ a ∈ l, writes a f = false) :
    readF (l.foldl applyOptArg o) f = readF o f := by
  induction l generalizing o with
  | nil => rfl
  | cons a l ih =>
    rw [List.foldl_cons, ih _ (fun x hx => h x (List.mem_cons_of_mem _ hx)),
      readF_applyOptArg_of_not_writes _ _ _ (h a (List.mem_cons_self a l))]

theorem readF_disableTok (o : CompileOpts) (f : OptField) :
    readF (applyOptArg o (disableTok f)) f = disabledVal f := by
  cases f <;> rfl

theorem readF_enableTok (o : CompileOpts) (f : OptField) :
    readF (applyOptArg o (enableTok f)) f = enabledVal f := by
  cases f <;> rfl

theorem readF_set_all (o : CompileOpts) (f : OptField) :
    readF (applyOptArg o OptArgs.All) f = enabledVal f := by
  cases f <;> rfl

theorem readF_set_no_all (o : CompileOpts) (f : OptField) :
    readF (applyOptArg o OptArgs.NoAll) f = disabledVal f := by
  cases f <;> rfl

/-- C2: last-write-wins over the fold of compile_opts_from_cli
(src/main.rs lines 191-222): for every individually-named toggle X, an
enable-all meta-toggle followed later by an explicit disable-X (the last
write to X) leaves X disabled, and disable-X followed later by enable-all
(the last write to X) leaves X enabled. -/
theorem c2_opt_last_write_wins (f : OptField) (l1 l2 l3 : List OptArgs)
    (h3 : ∀ a ∈ l3, writes a f = false) :
    readF (compile_opts_from_cli (l1 ++ OptArgs.All :: l2 ++ disableTok f :: l3)) f
      = disabledVal f
    ∧ readF (compile_opts_from_cli (l1 ++ disableTok f :: l2 ++ OptArgs.All :: l3)) f
      = enabledVal f := by
  constructor
  · rw [compile_opts_from_cli, List.foldl_append, List.foldl_cons, List.foldl_append,
      List.foldl_cons, readF_foldl_of_not_writes _ _ _ h3, readF_disableTok]
  · rw [compile_opts_from_cli, List.foldl_append, List.foldl_cons, List.foldl_append,
      List.foldl_cons, readF_foldl_of_not_writes _ _ _ h3, readF_set_all]

/-- Witness for C2 at the toggle eta with empty surrounding lists. -/
theorem c2_opt_last_write_wins_witness :
    (∀ a ∈ ([] : List OptArgs), writes a OptField.eta = false)
    ∧ (readF (compile_opts_from_cli ([] ++ OptArgs.All :: [] ++ disableTok OptField.eta :: []))
        OptField.eta = disabledVal OptField.eta
      ∧ readF (compile_opts_from_cli ([] ++ disableTok OptField.eta :: [] ++ OptArgs.All :: []))
        OptField.eta = enabledVal OptField.eta) :=
  ⟨by simp, c2_opt_last_write_wins OptField.eta [] [] [] (by simp)⟩

/-- Counterexample for C3: the claim says the enable-all/disable-all
meta-toggle is applied before any individually-named toggle of the same
invocation, so that the explicit per-flag setting wins regardless of where
the meta-toggle appears in the list; at the toggle list [NoEta, All] that
would make eta disabled, but compile_opts_from_cli folds in list order and
the later All re-enables eta. -/
theorem c3_counterexample :
    ¬ ((compile_opts_from_cli [OptArgs.NoEta, OptArgs.All]).eta = false) := by
  decide

/-- C3 amended: toggles, including the enable-all/disable-all meta-toggles,
are applied in list order by compile_opts_from_cli; an explicit
individually-named toggle wins over a meta-toggle exactly when it appears
later in the list than the meta-toggle, and a meta-toggle appearing after
an explicit per-flag toggle overrides it. -/
theorem c3_amended_fold_order (f : OptField) (m : OptArgs)
    (hm : m = OptArgs.All ∨ m = OptArgs.NoAll) (l1 l2 l3 : List OptArgs)
    (h3 : ∀ a ∈ l3, writes a f = false) :
    readF (compile_opts_from_cli (l1 ++ m :: l2 ++ disableTok f :: l3)) f = disabledVal f
    ∧ readF (compile_opts_from_cli (l1 ++ m :: l2 ++ enableTok f :: l3)) f = enabledVal f
    ∧ readF (compile_opts_from_cli (l1 ++ disableTok f :: l2 ++ m :: l3)) f
        = (if m = OptArgs.All then enabledVal f else disabledVal f)
    ∧ readF (compile_opts_from_cli (l1 ++ enableTok f :: l2 ++ m :: l3)) f
        = (if m = OptArgs.All then enabledVal f else disabledVal f) := by
  refine ⟨?_, ?_, ?_, ?_⟩
  · rw [compile_opts_from_cli, List.foldl_append, List.foldl_cons, List.foldl_append,
      List.foldl_cons, readF_foldl_of_not_writes _ _ _ h3, readF_disableTok]
  · rw [compile_opts_from_cli, List.foldl_append, List.foldl_cons, List.foldl_append,
      List.foldl_cons, readF_foldl_of_not_writes _ _ _ h3, readF_enableTok]
  · rcases hm with rfl | rfl
    · rw [if_pos rfl, compile_opts_from_cli, List.foldl_append, List.foldl_cons,
        List.foldl_append, List.foldl_cons, readF_foldl_of_not_writes _ _ _ h3, readF_set_all]
    · rw [if_neg (by decide), compile_opts_from_cli, List.foldl_append, List.foldl_cons,
        List.foldl_append, List.foldl_cons, readF_foldl_of_not_writes _ _ _ h3, readF_set_no_all]
  · rcases hm with rfl | rfl
    · rw [if_pos rfl, compile_opts_from_cli, List.foldl_append, List.foldl_cons,
        List.foldl_append, List.foldl_cons, readF_foldl_of_not_writes _ _ _ h3, readF_set_all]
    · rw [if_neg (by decide), compile_opts_from_cli, List.foldl_append, List.foldl_cons,
        List.foldl_append, List.foldl_cons, readF_foldl_of_not_writes _ _ _ h3, readF_set_no_all]

/-- Witness for the amended C3 at the toggle merge with the enable-all
meta-toggle and empty surrounding lists. -/
theorem c3_amended_fold_order_witness :
    readF (compile_opts_from_cli ([] ++ OptArgs.All :: [] ++ disableTok OptField.merge :: []))
      OptField.merge = disabledVal OptField.merge
    ∧ readF (compile_opts_from_cli ([] ++ OptArgs.All :: [] ++ enableTok OptField.merge :: []))
      OptField.merge = enabledVal OptField.merge
    ∧ readF (compile_opts_from_cli ([] ++ disableTok OptField.merge :: [] ++ OptArgs.All :: []))
      OptField.merge = (if OptArgs.All = OptArgs.All then enabledVal OptField.merge
        else disabledVal OptField.merge)
    ∧ readF (compile_opts_from_cli ([] ++ enableTok OptField.merge :: [] ++ OptArgs.All :: []))
      OptField.merge = (if OptArgs.All = OptArgs.All then enabledVal OptField.merge
        else disabledVal OptField.merge) :=
  c3_amended_fold_order OptField.merge OptArgs.All (Or.inl rfl) [] [] [] (by simp)

/-- Exit status of the external tool: its success bit together with its
textual rendering (the Rust side's status.to_string()). -/
structure ExitStatus where
  success : Bool
  display : String
deriving DecidableEq

/-- Captured result of a spawned external process (std::process::Output),
after lossy text decoding of the byte streams. -/
structure ProcessOutput where
  stdout : String
  stderr : String
  status : ExitStatus
deriving DecidableEq

/-- Oracle for the external world touched by the GenC/GenCu arm of
execute_cli_mode: the outcome of the artifact write (std::fs::write with
the error rendered to text), of process.output() (an error is a spawn
failure carrying the system error text), and of std::fs::remove_file. -/
structure GenWorld where
  write_result : Except String Unit
  spawn_result : Except String ProcessOutput
  remove_result : Except String Unit

/-- One emitted line: `out` models println! (standard output), `err`
models eprint!/eprintln! (the error channel). -/
inductive OutLine
  | out (s : String)
  | err (s : String)
deriving DecidableEq

/-- Observable outcome of one GenC/GenCu arm execution: the Result value
(Err carries the rendered diagnostics text), the emitted lines in order,
and whether the transient artifact .out.hvm exists on disk afterwards. -/
structure GenOutcome where
  result : Except String Unit
  trace : List OutLine
  artifact_on_disk : Bool

/-- The Mode::GenC / Mode::GenCu arm of execute_cli_mode
(src/main.rs lines 296-326), from the artifact write onwards: write the
serialized book to .out.hvm (failure aborts with the rendered error), run
`hvm_path cmd .out.hvm` (spawn failure aborts with "While running hvm: "
followed by the system error, before any cleanup), then remove the
artifact (failure only logged), then print the captured stderr, stdout
and the status line (empty when the exit status was success).
`init_on_disk` is whether .out.hvm existed before the invocation. -/
def execute_cli_mode_gen (hvm_path cmd hvm_text : String) (w : GenWorld)
    (init_on_disk : Bool) : GenOutcome :=
  match w.write_result with
  | .error e => { result := .error e, trace := [], artifact_on_disk := init_on_disk }
  | .ok _ =>
    match w.spawn_result with
    | .error e =>
      { result := .error ("While running hvm: " ++ e)
        trace := []
        artifact_on_disk := true }
    | .ok o =>
      let status := if o.status.success = false then o.status.display else ""
      match w.remove_result with
      | .ok _ =>
        { result := .ok ()
          trace := [OutLine.err o.stderr, OutLine.out o.stdout, OutLine.out status]
          artifact_on_disk := false }
      | .error e =>
        { result := .ok ()
          trace := OutLine.err ("Error removing HVM output file. " ++ e) ::
            [OutLine.err o.stderr, OutLine.out o.stdout, OutLine.out status]
          artifact_on_disk := true }

/-- Models main (src/main.rs lines 235-246): an Err from execute_cli_mode
is printed to the error channel and the process exits with failure;
Ok exits with success. -/
def main_exit_success : Except String Unit → Bool
  | .ok _ => true
  | .error _ => false

/-- Result bundle of a successful external run: the normal-form value in
its pretty and compact renderings, the rewrite statistics and the
accumulated diagnostics text. -/
structure RunResult where
  term_pretty : String
  term_compact : String
  stats : String
  diags : String

/-- Oracle for the external world touched by run_book: whether the
external runtime was spawned, the system error text when it was not, and
the optional normal-form result when it was. -/
structure RunWorld where
  spawn_ok : Bool
  spawn_err : String
  run_result : Option RunResult

/-- Modelled from the spec: run_book (library code, called at
src/main.rs lines 359-360) hands the program to the external runtime; a
spawn failure is a hard ProcessError aborting the invocation, wrapping
the underlying system error message verbatim (§4.5, §7c); otherwise it
optionally returns the normal-form value with statistics and
diagnostics (§4.3). -/
def run_book (w : RunWorld) : Except String (Option RunResult) :=
  if w.spawn_ok then .ok w.run_result
  else .error ("While running hvm: " ++ w.spawn_err)

/-- The Mode::Run / Mode::RunC / Mode::RunCu arm of execute_cli_mode
(src/main.rs lines 344-372), from the run_book call onwards: a run_book
error propagates; when the runtime produces no result nothing is printed;
otherwise diagnostics go to the error channel, then the result value
(pretty or compact), then, if requested, the statistics. -/
def execute_cli_mode_run (w : RunWorld) (pretty print_stats : Bool) :
    Except String Unit × List OutLine :=
  match run_book w with
  | .error d => (.error d, [])
  | .ok none => (.ok (), [])
  | .ok (some r) =>
    (.ok (),
      [OutLine.err r.diags,
        OutLine.out (if pretty then "Result:\n" ++ r.term_pretty
          else "Result: " ++ r.term_compact)]
        ++ (if print_stats then [OutLine.out r.stats] else []))

/-- C5: a GenC/GenCu invocation in which the external tool was spawned and
exited with a non-zero status still returns Ok — main exits with
success — and the status text is rendered into the output rather than
raised as an error (src/main.rs lines 314-326, 241-245). -/
theorem c5_nonzero_status_not_fatal (hvm_path cmd hvm_text : String) (w : GenWorld)
    (init : Bool) (o : ProcessOutput) (hw : w.write_result = Except.ok ())
    (hs : w.spawn_result = Except.ok o) (hns : o.status.success = false) :
    (execute_cli_mode_gen hvm_path cmd hvm_text w init).result = Except.ok ()
    ∧ main_exit_success (execute_cli_mode_gen hvm_path cmd hvm_text w init).result = true
    ∧ OutLine.out o.status.display ∈ (execute_cli_mode_gen hvm_path cmd hvm_text w init).trace := by
  cases hrem : w.remove_result <;>
    simp [execute_cli_mode_gen, hw, hs, hrem, hns, main_exit_success]

/-- Witness for C5 at a concrete world whose tool exits with status 1. -/
theorem c5_nonzero_status_not_fatal_witness :
    (execute_cli_mode_gen "hvm" "gen-c" "code"
        ⟨Except.ok (), Except.ok ⟨"out", "err", ⟨false, "exit status: 1"⟩⟩, Except.ok ()⟩
        false).result = Except.ok ()
    ∧ main_exit_success (execute_cli_mode_gen "hvm" "gen-c" "code"
        ⟨Except.ok (), Except.ok ⟨"out", "err", ⟨false, "exit status: 1"⟩⟩, Except.ok ()⟩
        false).result = true
    ∧ OutLine.out (ExitStatus.mk false "exit status: 1").display ∈
        (execute_cli_mode_gen "hvm" "gen-c" "code"
          ⟨Except.ok (), Except.ok ⟨"out", "err", ⟨false, "exit status: 1"⟩⟩, Except.ok ()⟩
          false).trace :=
  c5_nonzero_status_not_fatal "hvm" "gen-c" "code"
    ⟨Except.ok (), Except.ok ⟨"out", "err", ⟨false, "exit status: 1"⟩⟩, Except.ok ()⟩
    false ⟨"out", "err", ⟨false, "exit status: 1"⟩⟩ rfl rfl rfl

/-- Counterexample for C6: the claim says the transient artifact does not
exist after the invocation completes even when spawning the external tool
fails, cleanup still running in that case; but in the GenC/GenCu arm a
spawn failure returns early (the question-mark operator at
src/main.rs line 314) before std::fs::remove_file is reached, so the
artifact written at line 305 is left on disk. -/
theorem c6_counterexample :
    ¬ ((execute_cli_mode_gen "hvm" "gen-c" "code"
      ⟨Except.ok (), Except.error "No such file or directory (os error 2)", Except.ok ()⟩
      false).artifact_on_disk = false) := by
  decide

/-- C6 amended: after a GenC/GenCu invocation in which the external tool
was spawned, the artifact does not exist when removal succeeds; when
removal fails the artifact remains, the failure is logged on the error
channel and the invocation still returns Ok; when spawning fails the
invocation returns early with the error, cleanup does not run and the
artifact remains on disk. -/
theorem c6_amended_cleanup (hvm_path cmd hvm_text : String) (w : GenWorld) (init : Bool)
    (hw : w.write_result = Except.ok ()) :
    (∀ o, w.spawn_result = Except.ok o →
      (w.remove_result = Except.ok () →
        (execute_cli_mode_gen hvm_path cmd hvm_text w init).artifact_on_disk = false)
      ∧ (∀ e, w.remove_result = Except.error e →
        (execute_cli_mode_gen hvm_path cmd hvm_text w init).artifact_on_disk = true
        ∧ (execute_cli_mode_gen hvm_path cmd hvm_text w init).result = Except.ok ()
        ∧ OutLine.err ("Error removing HVM output file. " ++ e) ∈
            (execute_cli_mode_gen hvm_path cmd hvm_text w init).trace))
    ∧ (∀ e, w.spawn_result = Except.error e →
      (execute_cli_mode_gen hvm_path cmd hvm_text w init).artifact_on_disk = true
      ∧ main_exit_success (execute_cli_mode_gen hvm_path cmd hvm_text w init).result = false) := by
  constructor
  · intro o hs
    constructor
    · intro hrem
      simp [execute_cli_mode_gen, hw, hs, hrem]
    · intro e hrem
      simp [execute_cli_mode_gen, hw, hs, hrem, main_exit_success]
  · intro e hs
    simp [execute_cli_mode_gen, hw, hs, main_exit_success]

/-- Witness for the amended C6 at a concrete world whose removal fails. -/
theorem c6_amended_cleanup_witness :
    (∀ o, (GenWorld.mk (Except.ok ()) (Except.ok ⟨"o", "e", ⟨true, ""⟩⟩)
        (Except.error "Permission denied")).spawn_result = Except.ok o →
      ((GenWorld.mk (Except.ok ()) (Except.ok ⟨"o", "e", ⟨true, ""⟩⟩)
          (Except.error "Permission denied")).remove_result = Except.ok () →
        (execute_cli_mode_gen "hvm" "gen-cu" "code"
          (GenWorld.mk (Except.ok ()) (Except.ok ⟨"o", "e", ⟨true, ""⟩⟩)
            (Except.error "Permission denied")) true).artifact_on_disk = false)
      ∧ (∀ e, (GenWorld.mk (Except.ok ()) (Except.ok ⟨"o", "e", ⟨true, ""⟩⟩)
          (Except.error "Permission denied")).remove_result = Except.error e →
        (execute_cli_mode_gen "hvm" "gen-cu" "code"
          (GenWorld.mk (Except.ok ()) (Except.ok ⟨"o", "e", ⟨true, ""⟩⟩)
            (Except.error "Permission denied")) true).artifact_on_disk = true
        ∧ (execute_cli_mode_gen "hvm" "gen-cu" "code"
            (GenWorld.mk (Except.ok ()) (Except.ok ⟨"o", "e", ⟨true, ""⟩⟩)
              (Except.error "Permission denied")) true).result = Except.ok ()
        ∧ OutLine.err ("Error removing HVM output file. " ++ e) ∈
            (execute_cli_mode_gen "hvm" "gen-cu" "code"
              (GenWorld.mk (Except.ok ()) (Except.ok ⟨"o", "e", ⟨true, ""⟩⟩)
                (Except.error "Permission denied")) true).trace))
    ∧ (∀ e, (GenWorld.mk (Except.ok ()) (Except.ok ⟨"o", "e", ⟨true, ""⟩⟩)
        (Except.error "Permission denied")).spawn_result = Except.error e →
      (execute_cli_mode_gen "hvm" "gen-cu" "code"
        (GenWorld.mk (Except.ok ()) (Except.ok ⟨"o", "e", ⟨true, ""⟩⟩)
          (Except.error "Permission denied")) true).artifact_on_disk = true
      ∧ main_exit_success (execute_cli_mode_gen "hvm" "gen-cu" "code"
          (GenWorld.mk (Except.ok ()) (Except.ok ⟨"o", "e", ⟨true, ""⟩⟩)
            (Except.error "Permission denied")) true).result = false) :=
  c6_amended_cleanup "hvm" "gen-cu" "code"
    (GenWorld.mk (Except.ok ()) (Except.ok ⟨"o", "e", ⟨true, ""⟩⟩)
      (Except.error "Permission denied")) true rfl

/-- C7: when spawning the external tool fails, the invocation returns a
fatal error whose text contains the underlying system error message, and
main exits with failure — in the GenC/GenCu arm (src/main.rs lines
308-314) and in the Run/RunC/RunCu arm through run_book
(src/main.rs lines 359-360). -/
theorem c7_spawn_failure_fatal (hvm_path cmd hvm_text e : String) (w : GenWorld)
    (init : Bool) (rwo : RunWorld) (pretty print_stats : Bool)
    (hw : w.write_result = Except.ok ()) (hg : w.spawn_result = Except.error e)
    (hr : rwo.spawn_ok = false) :
    (∃ pre suf, (execute_cli_mode_gen hvm_path cmd hvm_text w init).result
      = Except.error (pre ++ e ++ suf))
    ∧ main_exit_success (execute_cli_mode_gen hvm_path cmd hvm_text w init).result = false
    ∧ (∃ pre suf, (execute_cli_mode_run rwo pretty print_stats).1
      = Except.error (pre ++ rwo.spawn_err ++ suf))
    ∧ main_exit_success (execute_cli_mode_run rwo pretty print_stats).1 = false := by
  refine ⟨⟨"While running hvm: ", "", ?_⟩, ?_, ⟨"While running hvm: ", "", ?_⟩, ?_⟩ <;>
    simp [execute_cli_mode_gen, execute_cli_mode_run, run_book, hw, hg, hr,
      main_exit_success, String.append_empty]

/-- Witness for C7 at a concrete world whose tool path does not exist. -/
theorem c7_spawn_failure_fatal_witness :
    (∃ pre suf, (execute_cli_mode_gen "hvm" "gen" "code"
      ⟨Except.ok (), Except.error "No such file or directory (os error 2)", Except.ok ()⟩
      false).result = Except.error (pre ++ "No such file or directory (os error 2)" ++ suf))
    ∧ main_exit_success (execute_cli_mode_gen "hvm" "gen" "code"
        ⟨Except.ok (), Except.error "No such file or directory (os error 2)", Except.ok ()⟩
        false).result = false
    ∧ (∃ pre suf, (execute_cli_mode_run
        ⟨false, "No such file or directory (os error 2)", none⟩ false false).1
      = Except.error (pre ++ (RunWorld.mk false "No such file or directory (os error 2)"
          none).spawn_err ++ suf))
    ∧ main_exit_success (execute_cli_mode_run
        ⟨false, "No such file or directory (os error 2)", none⟩ false false).1 = false :=
  c7_spawn_failure_fatal "hvm" "gen" "code" "No such file or directory (os error 2)"
    ⟨Except.ok (), Except.error "No such file or directory (os error 2)", Except.ok ()⟩
    false ⟨false, "No such file or directory (os error 2)", none⟩ false false rfl rfl rfl

/-- Counterexample for C8: the claim says the driver prints the captured
stdout first, then the captured stderr, then the status line; at a world
whose tool printed "OUT" on stdout and "ERR" on stderr and exited
successfully, the GenC/GenCu arm (src/main.rs lines 323-325) actually
prints stderr first (eprintln), then stdout, then the status line, so the
emitted sequence differs from the claimed one. -/
theorem c8_counterexample :
    (execute_cli_mode_gen "hvm" "gen" "code"
        ⟨Except.ok (), Except.ok ⟨"OUT", "ERR", ⟨true, ""⟩⟩, Except.ok ()⟩ false).trace
      = [OutLine.err "ERR", OutLine.out "OUT", OutLine.out ""]
    ∧ (execute_cli_mode_gen "hvm" "gen" "code"
        ⟨Except.ok (), Except.ok ⟨"OUT", "ERR", ⟨true, ""⟩⟩, Except.ok ()⟩ false).trace
      ≠ [OutLine.out "OUT", OutLine.err "ERR", OutLine.out ""] := by
  constructor
  · rfl
  · decide

/-- C8 amended: when the external tool was spawned, the GenC/GenCu arm
prints the removal-failure log line (if any), then the captured stderr on
the error channel, then the captured stdout on standard output, then a
status line on standard output, and the status line is the empty string
exactly when the exit status was success (given that the textual rendering
of a non-success status is never empty). -/
theorem c8_amended_print_order (hvm_path cmd hvm_text : String) (w : GenWorld)
    (init : Bool) (o : ProcessOutput) (hw : w.write_result = Except.ok ())
    (hs : w.spawn_result = Except.ok o) (hdisp : o.status.display ≠ "") :
    (execute_cli_mode_gen hvm_path cmd hvm_text w init).trace
      = (match w.remove_result with
          | Except.ok _ => []
          | Except.error e => [OutLine.err ("Error removing HVM output file. " ++ e)])
        ++ [OutLine.err o.stderr, OutLine.out o.stdout,
            OutLine.out (if o.status.success = false then o.status.display else "")]
    ∧ ((if o.status.success = false then o.status.display else "") = ""
        ↔ o.status.success = true) := by
  constructor
  · cases hrem : w.remove_result <;> simp [execute_cli_mode_gen, hw, hs, hrem]
  · cases hsucc : o.status.success <;> simp [hsucc, hdisp]

/-- Witness for the amended C8 at a concrete world with a failing tool. -/
theorem c8_amended_print_order_witness :
    (execute_cli_mode_gen "hvm" "gen" "code"
        ⟨Except.ok (), Except.ok ⟨"OUT", "ERR", ⟨false, "exit status: 1"⟩⟩, Except.ok ()⟩
        false).trace
      = (match (GenWorld.mk (Except.ok ())
            (Except.ok ⟨"OUT", "ERR", ⟨false, "exit status: 1"⟩⟩)
            (Except.ok ())).remove_result with
          | Except.ok _ => []
          | Except.error e => [OutLine.err ("Error removing HVM output file. " ++ e)])
        ++ [OutLine.err "ERR", OutLine.out "OUT",
            OutLine.out (if (ExitStatus.mk false "exit status: 1").success = false
              then (ExitStatus.mk false "exit status: 1").display else "")]
    ∧ ((if (ExitStatus.mk false "exit status: 1").success = false
          then (ExitStatus.mk false "exit status: 1").display else "") = ""
        ↔ (ExitStatus.mk false "exit status: 1").success = true) :=
  c8_amended_print_order "hvm" "gen" "code"
    ⟨Except.ok (), Except.ok ⟨"OUT", "ERR", ⟨false, "exit status: 1"⟩⟩, Except.ok ()⟩
    false ⟨"OUT", "ERR", ⟨false, "exit status: 1"⟩⟩ rfl rfl (by decide)

/-- The Mode variants of the CLI (src/main.rs lines 30-81); only the tag
matters for configuration resolution, the per-mode payloads are passed
separately. -/
inductive Mode
  | Check
  | Run
  | RunC
  | RunCu
  | GenHvm
  | GenC
  | GenCu
  | Desugar
deriving DecidableEq

/-- The external-tool subcommand for generation modes
(src/main.rs lines 263-267). -/
def gen_cmd : Mode → String
  | .GenC => "gen-c"
  | .GenCu => "gen-cu"
  | _ => "gen"

/-- The external-tool subcommand for run modes (src/main.rs lines 269-273;
the Rust local is named run plus cmd, an identifier Lean reserves). -/
def runSubcmd : Mode → String
  | .RunC => "run-c"
  | .RunCu => "run-cu"
  | _ => "run"

/-- The diagnostics configuration each mode starts from before the
warn/deny/allow tokens are applied: Run/RunC/RunCu build
DiagnosticsConfig::new(Severity::Allow, verbose) (src/main.rs
lines 349-350); Check, GenHvm, GenC, GenCu and Desugar use
DiagnosticsConfig::default() (src/main.rs lines 277, 286, 298, 329). -/
def baseline_cfg (m : Mode) (verbose : Bool) : DiagnosticsConfig :=
  match m with
  | .Run | .RunC | .RunCu => DiagnosticsConfig.new Severity.Allow verbose
  | .Check | .GenHvm | .GenC | .GenCu | .Desugar => DiagnosticsConfig.default

/-- The resolved diagnostics configuration of one invocation: the
warn/deny/allow tokens applied on top of the mode's baseline. -/
def diagnostics_cfg_for_mode (m : Mode) (verbose : Bool) (ids : List String)
    (warn_opts : CliWarnOpts) : Option DiagnosticsConfig :=
  set_warning_cfg_from_cli (baseline_cfg m verbose) ids warn_opts

/-- C9: in the Run/RunC/RunCu modes the semantic-check diagnostics
configuration starts from a baseline with every category at severity
Allow (permissive by default, here stated for the non-verbose case the
claim describes), with the warn/deny/allow tokens applied on top of that
baseline; Check, GenHvm, GenC, GenCu and Desugar instead start from the
standard default configuration. -/
theorem c9_run_modes_allow_baseline (m : Mode) (verbose : Bool) (ids : List String)
    (warn_opts : CliWarnOpts) (c : Cat) (hv : verbose = false) :
    ((m = Mode.Run ∨ m = Mode.RunC ∨ m = Mode.RunCu) →
      getCat (baseline_cfg m verbose) c = Severity.Allow
      ∧ diagnostics_cfg_for_mode m verbose ids warn_opts
        = set_warning_cfg_from_cli (DiagnosticsConfig.new Severity.Allow verbose) ids warn_opts)
    ∧ ((m = Mode.Check ∨ m = Mode.GenHvm ∨ m = Mode.GenC ∨ m = Mode.GenCu ∨ m = Mode.Desugar) →
      diagnostics_cfg_for_mode m verbose ids warn_opts
        = set_warning_cfg_from_cli DiagnosticsConfig.default ids warn_opts) := by
  subst hv
  constructor
  · rintro (rfl | rfl | rfl) <;> exact ⟨by cases c <;> rfl, rfl⟩
  · rintro (rfl | rfl | rfl | rfl | rfl) <;> rfl

/-- Witness for C9 at the Run mode without verbosity. -/
theorem c9_run_modes_allow_baseline_witness :
    ((Mode.Run = Mode.Run ∨ Mode.Run = Mode.RunC ∨ Mode.Run = Mode.RunCu) →
      getCat (baseline_cfg Mode.Run false) Cat.unused_definition = Severity.Allow
      ∧ diagnostics_cfg_for_mode Mode.Run false ["warns"] ⟨[WarningArgs.All], [], []⟩
        = set_warning_cfg_from_cli (DiagnosticsConfig.new Severity.Allow false) ["warns"]
            ⟨[WarningArgs.All], [], []⟩)
    ∧ ((Mode.Run = Mode.Check ∨ Mode.Run = Mode.GenHvm ∨ Mode.Run = Mode.GenC
        ∨ Mode.Run = Mode.GenCu ∨ Mode.Run = Mode.Desugar) →
      diagnostics_cfg_for_mode Mode.Run false ["warns"] ⟨[WarningArgs.All], [], []⟩
        = set_warning_cfg_from_cli DiagnosticsConfig.default ["warns"]
            ⟨[WarningArgs.All], [], []⟩) :=
  c9_run_modes_allow_baseline Mode.Run false ["warns"] ⟨[WarningArgs.All], [], []⟩
    Cat.unused_definition rfl

end Bend
